import Mathlib

/-!
# libfranka examples: joint impedance control and joint velocity motion

A shallow embedding of `examples/joint_impedance_control.cpp` and
`examples/generate_joint_velocity_motion.cpp` in exact arithmetic.

* `double` is an arbitrary linearly ordered field `α` (instantiate `ℚ` to
  evaluate, `ℝ` for the real-number reading); rounding is outside the model.
  Where the code can produce a NaN or an infinity (the division by
  `fabs(radius)`), the value is an `Option α` and `none` stands for it.
* `std::array<double, N>` is `Fin N → α`.
* A lambda that captures variables by reference becomes a function from the
  captured state to the new captured state and the returned command.
* `std::mutex` is an explicit two-valued guard.
* The libm functions `cos`, `sin`, `sqrt` and the constant `M_PI` are taken
  as parameters (`Libm`).
-/

namespace Franka

/-! ## Data model -/

/-- The type `std::array<double, 7>`. -/
abbrev Vec7 (α : Type) := Fin 7 → α

/-- The type `std::array<double, 16>`: a column-major 4x4 transform. -/
abbrev Mat16 (α : Type) := Fin 16 → α

/-- The fields of `franka::RobotState` that the two examples read. -/
structure RobotState (α : Type) where
  q : Vec7 α
  q_d : Vec7 α
  dq : Vec7 α
  dq_d : Vec7 α
  tau_J : Vec7 α
  tau_J_d : Vec7 α
  O_T_EE : Mat16 α

/-- The libm functions and the constant `M_PI` used by the examples. -/
structure Libm (α : Type) where
  cos : α → α
  sin : α → α
  sqrt : α → α
  pi : α

/-- The dynamics model `franka::Model`, called with zero load throughout. -/
structure Model (α : Type) where
  coriolis : RobotState α → Vec7 α
  gravity : RobotState α → Vec7 α

/-- The command `franka::JointVelocities` with its `motion_finished` flag. -/
structure JointVelocities (α : Type) where
  dq : Vec7 α
  motion_finished : Bool

/-- The command `franka::CartesianPose` with its `motion_finished` flag; an
entry is `none` where the double is NaN or infinite. -/
structure CartesianPose (α : Type) where
  O_T_EE : Fin 16 → Option α
  motion_finished : Bool

/-- The command `franka::Torques` with its `motion_finished` flag. -/
structure Torques (α : Type) where
  tau_J : Vec7 α
  motion_finished : Bool

section Field

variable {α : Type} [LinearOrderedField α]

/-! ## joint_impedance_control.cpp: saturateTorqueRate -/

/-- The function `saturateTorqueRate` (joint_impedance_control.cpp, 239-252). -/
def saturateTorqueRate (delta_tau_max : α) (tau_d_calculated tau_J_d gravity : Vec7 α) :
    Vec7 α :=
  fun i =>
    let difference := tau_d_calculated i - (tau_J_d i - gravity i)
    (tau_J_d i - gravity i) + max (min difference delta_tau_max) (-delta_tau_max)

/-! ## joint_impedance_control.cpp: Cartesian pose callback -/

/-- The constant `run_time` of `main`. -/
def run_time : α := 20

/-- The constant `acceleration_time` of `main`. -/
def acceleration_time : α := 2

/-- The variables `cartesian_pose_callback` captures by reference: `time`,
`vel_current`, `angle`, `initial_pose` and the flag `running`; `angle` is
`none` once it is NaN or infinite. -/
structure CircleState (α : Type) where
  time : α
  vel_current : α
  angle : Option α
  initial_pose : Mat16 α
  running : Bool

/-- The captured variables as `main` initialises them; `initial_pose` is
declared without an initialiser, so its first content `garbage` is arbitrary. -/
def circle_init (garbage : Mat16 α) : CircleState α :=
  { time := 0, vel_current := 0, angle := some 0, initial_pose := garbage, running := true }

/-- The quotient `x / y` of two doubles: `none` at `y = 0`, where the IEEE
division gives an infinity (`x` non-zero) or NaN (`x` zero). -/
def fdiv (x y : α) : Option α := if y = 0 then none else some (x / y)

/-- The lambda `cartesian_pose_callback` (joint_impedance_control.cpp, 139-179):
one call, from the captured state `s`, on `robot_state` and `period.toSec()`.
A NaN or infinite `angle` stays so through the addition, the comparison with
`2 * M_PI` and the subtraction, and makes `delta_y`, `delta_z` and the entries
13 and 14 of the pose NaN. -/
def cartesian_pose_callback (m : Libm α) (radius vel_max : α) (s : CircleState α)
    (robot_state : RobotState α) (period : α) : CircleState α × CartesianPose α :=
  let initial_pose := if s.time = 0 then robot_state.O_T_EE else s.initial_pose
  let time := s.time + period
  let vel1 :=
    if s.vel_current < vel_max ∧ time < run_time then
      s.vel_current + period * |vel_max / acceleration_time|
    else s.vel_current
  let vel2 :=
    if vel1 > 0 ∧ time > run_time then vel1 - period * |vel_max / acceleration_time|
    else vel1
  let vel3 := max vel2 0
  let vel_current := min vel3 vel_max
  let angle1 : Option α :=
    s.angle.bind (fun a => (fdiv (period * vel_current) |radius|).map (fun q => a + q))
  let angle : Option α :=
    angle1.map (fun a => if a > 2 * m.pi then a - 2 * m.pi else a)
  let delta_y : Option α := angle.map (fun a => radius * (1 - m.cos a))
  let delta_z : Option α := angle.map (fun a => radius * m.sin a)
  let pose_desired : Fin 16 → Option α :=
    Function.update
      (Function.update (fun i => some (initial_pose i)) 13
        (delta_y.map (fun d => initial_pose 13 + d)))
      14 (delta_z.map (fun d => initial_pose 14 + d))
  if time ≥ run_time + acceleration_time then
    ({ time := time, vel_current := vel_current, angle := angle,
       initial_pose := initial_pose, running := false },
     { O_T_EE := pose_desired, motion_finished := true })
  else
    ({ time := time, vel_current := vel_current, angle := angle,
       initial_pose := initial_pose, running := s.running },
     { O_T_EE := pose_desired, motion_finished := false })

/-- The captured state after the driver has called `cartesian_pose_callback`
once per element of `cycles` (robot state and cycle duration), in order. -/
def circle_run (m : Libm α) (radius vel_max : α) (s : CircleState α)
    (cycles : List (RobotState α × α)) : CircleState α :=
  cycles.foldl (fun st c => (cartesian_pose_callback m radius vel_max st c.1 c.2).1) s

/-! ## joint_impedance_control.cpp: shared print data, torque callback, print thread -/

/-- A `std::mutex` as explicit state. -/
inductive Mutex where
  | free
  | held
  deriving DecidableEq, Repr

/-- The call `std::mutex::try_lock`: whether it acquired, and the mutex afterwards. -/
def Mutex.try_lock : Mutex → Bool × Mutex
  | .free => (true, .held)
  | .held => (false, .held)

/-- The call `std::mutex::unlock`. -/
def Mutex.unlock : Mutex → Mutex := fun _ => .free

/-- The struct `print_data` of `main`. -/
structure PrintData (α : Type) where
  mutex : Mutex
  has_data : Bool
  tau_d_last : Vec7 α
  robot_state : RobotState α
  gravity : Vec7 α

/-- The stiffness gains `k_gains`. -/
def k_gains : Vec7 α := ![600, 600, 600, 600, 250, 150, 50]

/-- The damping gains `d_gains`. -/
def d_gains : Vec7 α := ![50, 50, 50, 50, 30, 25, 15]

/-- The constant `delta_tau_max`. -/
def delta_tau_max : α := 1

/-- The raw torque `tau_d_calculated` of the impedance law (lines 202-206). -/
def tau_d_calculated (model : Model α) (state : RobotState α) : Vec7 α :=
  fun i => k_gains i * (state.q_d i - state.q i) - d_gains i * state.dq i
    + model.coriolis state i

/-- The lambda `impedance_control_callback` (joint_impedance_control.cpp,
192-223): one call on the shared `print_data` and `state`; the period is unused. -/
def impedance_control_callback (model : Model α) (pd : PrintData α)
    (state : RobotState α) (_period : α) : PrintData α × Torques α :=
  let tau_d_saturated :=
    saturateTorqueRate delta_tau_max (tau_d_calculated model state) state.tau_J_d
      (model.gravity state)
  let r := pd.mutex.try_lock
  let pd1 : PrintData α :=
    if r.1 then
      { mutex := r.2.unlock, has_data := true, robot_state := state,
        tau_d_last := tau_d_saturated, gravity := model.gravity state }
    else { pd with mutex := r.2 }
  (pd1, { tau_J := tau_d_saturated, motion_finished := false })

/-- What one pass of the print thread writes to the console. -/
structure Report (α : Type) where
  tau_error : Vec7 α
  tau_d_actual : Vec7 α
  tau_measured : Vec7 α
  error_rms : α

/-- One pass of the body of the print thread loop after its sleep
(joint_impedance_control.cpp, 94-114): `try_lock() && has_data`, and the
`unlock` that stands inside the `if` block only. -/
def print_thread_tick (m : Libm α) (pd : PrintData α) : PrintData α × Option (Report α) :=
  let r := pd.mutex.try_lock
  if r.1 && pd.has_data then
    let tau_d_actual : Vec7 α := fun i => pd.tau_d_last i + pd.gravity i
    let tau_error : Vec7 α := fun i => tau_d_actual i - pd.robot_state.tau_J i
    let error_rms :=
      m.sqrt ((List.finRange 7).foldl (fun acc i => acc + tau_error i ^ 2 / 7) 0)
    ({ pd with mutex := r.2.unlock, has_data := false },
     some { tau_error := tau_error, tau_d_actual := tau_d_actual,
            tau_measured := pd.robot_state.tau_J, error_rms := error_rms })
  else ({ pd with mutex := r.2 }, none)

/-! ## joint_impedance_control.cpp: start of main -/

/-- What `main` does, in order, up to the `try` block. -/
inductive Event (α : Type) where
  | print_usage
  | print_warning
  | print_rate_too_small
  | start_print_thread (print_rate : α)
  | connect_robot

/-- How the start of `main` ends. -/
inductive Outcome where
  | returned (status : ℤ)
  | uncaught_invalid_argument
  | control_session
  deriving DecidableEq, Repr

/-- The start of `main` (joint_impedance_control.cpp, 48-120) on `argc` and the
results of `std::stod` on `argv[2]`, `argv[3]`, `argv[4]` (`none` where
`std::stod` throws, which nothing catches). -/
def main_start (argc : ℕ) (radius vel_max print_rate : Option α) :
    List (Event α) × Outcome :=
  if argc ≠ 5 then ([Event.print_usage], Outcome.returned (-1))
  else
    match radius, vel_max, print_rate with
    | some _, some _, some print_rate =>
      if print_rate < 0 then
        ([Event.print_warning, Event.print_rate_too_small], Outcome.returned (-1))
      else
        ([Event.print_warning, Event.start_print_thread print_rate, Event.connect_robot],
         Outcome.control_session)
    | _, _, _ => ([Event.print_warning], Outcome.uncaught_invalid_argument)

/-- Whether the print thread was started in a run of the start of `main`. -/
def starts_print_thread : List (Event α) → Bool
  | [] => false
  | Event.start_print_thread _ :: _ => true
  | _ :: es => starts_print_thread es

/-- Whether the robot was connected to in a run of the start of `main`. -/
def connects_robot : List (Event α) → Bool
  | [] => false
  | Event.connect_robot :: _ => true
  | _ :: es => connects_robot es

/-- Whether the print-rate error was reported in a run of the start of `main`. -/
def reports_print_rate : List (Event α) → Bool
  | [] => false
  | Event.print_rate_too_small :: _ => true
  | _ :: es => reports_print_rate es

end Field

section Floor

variable {α : Type} [LinearOrderedField α] [FloorRing α]

/-- Rounding toward zero, as `std::fmod` and `static_cast<int>` do. -/
def trunc (x : α) : ℤ := if 0 ≤ x then ⌊x⌋ else ⌈x⌉

/-- The argument `static_cast<int>((1.0 / print_rate * 1000.0))` of the sleep
that opens every pass of the print thread (line 92); `none` where the C++
expression has no defined value: a division by zero, or a value outside `int`. -/
def sleep_milliseconds (print_rate : α) : Option ℤ :=
  if print_rate = 0 then none
  else
    let ms := trunc (1 / print_rate * 1000)
    if -2147483648 ≤ ms ∧ ms ≤ 2147483647 then some ms else none

/-! ## generate_joint_velocity_motion.cpp -/

/-- The array `max_joint_acc`. -/
def max_joint_acc : Vec7 α := ![57 / 4, 57 / 8, 95 / 8, 95 / 8, 57 / 4, 19, 19]

/-- The constant `time_max`. -/
def time_max : α := 1

/-- The constant `omega_max`. -/
def omega_max : α := 1

/-- Modelled from the spec: the helper `saturate` of examples_common.h, which
`src/` does not hold; spec 4.1 gives
`out[i] = base[i] + clamp(raw[i] - base[i], -limit[i], +limit[i])`. -/
def saturate (max_value desired_value last_value : Vec7 α) : Vec7 α :=
  fun i => last_value i + max (-(max_value i)) (min (desired_value i - last_value i) (max_value i))

/-- The function `std::fmod`: the remainder has the sign of `x`. -/
def fmod (x y : α) : α := x - (trunc (x / y) : α) * y

/-- The call `std::pow(-1.0, e)`: 1 at an even integer `e`, -1 at an odd one.
At any other `e` the C function returns NaN, which has no value here: 0. -/
def pow_neg_one (e : α) : α :=
  if ((⌊e⌋ : ℤ) : α) = e then (if ⌊e⌋ % 2 = 0 then 1 else -1) else 0

/-- The command `{{0.0, 0.0, 0.0, omega, omega, omega, omega}}`. -/
def velocities (omega : α) : Vec7 α := ![0, 0, 0, omega, omega, omega, omega]

/-- The velocity `omega` of a cycle, from the updated `time` (lines 51-52). -/
def omega_at (m : Libm α) (time : α) : α :=
  let cycle : α := ((⌊pow_neg_one ((time - fmod time time_max) / time_max)⌋ : ℤ) : α)
  cycle * omega_max / 2 * (1 - m.cos (2 * m.pi / time_max * time))

/-- The lambda passed to `robot.control` (generate_joint_velocity_motion.cpp,
47-69): one call, from the captured `time`, on `state` and `time_step.toSec()`;
returns the new `time` and the command. -/
def joint_velocity_callback (m : Libm α) (time : α) (state : RobotState α) (time_step : α) :
    α × JointVelocities α :=
  let time := time + time_step
  let omega := omega_at m time
  if time ≥ 2 * time_max then
    (time, { dq := velocities omega, motion_finished := true })
  else
    (time, { dq := saturate max_joint_acc (velocities omega) state.dq_d,
             motion_finished := false })

/-- The captured `time` after the driver has called `joint_velocity_callback`
once per element of `cycles`, in order, starting from `time = 0`. -/
def velocity_time (m : Libm α) (cycles : List (RobotState α × α)) : α :=
  cycles.foldl (fun t c => (joint_velocity_callback m t c.1 c.2).1) 0

end Floor

/-! ## Concrete inputs -/

section Inputs

variable {α : Type} [LinearOrderedField α]

/-- A robot at rest at the origin whose last commanded joint velocity is `v`
on every joint. -/
def state_with_dq_d (v : α) : RobotState α :=
  { q := fun _ => 0, q_d := fun _ => 0, dq := fun _ => 0, dq_d := fun _ => v,
    tau_J := fun _ => 0, tau_J_d := fun _ => 0, O_T_EE := fun _ => 0 }

/-- A robot at rest whose end-effector transform `O_T_EE` has every entry `c`. -/
def state_with_pose (c : α) : RobotState α :=
  { q := fun _ => 0, q_d := fun _ => 0, dq := fun _ => 0, dq_d := fun _ => 0,
    tau_J := fun _ => 0, tau_J_d := fun _ => 0, O_T_EE := fun _ => c }

/-- A dynamics model with no coriolis torque and gravity torque 1 on every joint. -/
def unit_gravity_model : Model α :=
  { coriolis := fun _ _ => 0, gravity := fun _ _ => 1 }

/-- The value-initialised `print_data{}` of `main` (line 84). -/
def print_data_init : PrintData α :=
  { mutex := Mutex.free, has_data := false, tau_d_last := fun _ => 0,
    robot_state := state_with_pose 0, gravity := fun _ => 0 }

end Inputs

/-! # Theorems -/

section FieldTheorems

variable {α : Type} [LinearOrderedField α]

/-! ## Saturation of the torque rate -/

/-- The clamp of `saturateTorqueRate`, written out. -/
lemma saturateTorqueRate_apply (delta_tau_max : α) (tau_d_calculated tau_J_d gravity : Vec7 α)
    (i : Fin 7) :
    saturateTorqueRate delta_tau_max tau_d_calculated tau_J_d gravity i
      = (tau_J_d i - gravity i)
        + max (min (tau_d_calculated i - (tau_J_d i - gravity i)) delta_tau_max)
            (-delta_tau_max) := rfl

/-- Clamping to a symmetric interval of positive half-width stays in the
interval, keeps the sign, and is the identity inside the interval. -/
lemma clamp_facts (d L : α) (hL : 0 < L) :
    |max (min d L) (-L)| ≤ L
      ∧ SignType.sign (max (min d L) (-L)) = SignType.sign d
      ∧ (|d| ≤ L → max (min d L) (-L) = d) := by
  refine ⟨?_, ?_, ?_⟩
  · rw [abs_le]
    exact ⟨le_max_right _ _, max_le (min_le_right _ _) (by linarith)⟩
  · rcases lt_trichotomy d 0 with hd | hd | hd
    · have h1 : min d L = d := min_eq_left (by linarith)
      have h2 : max d (-L) < 0 := max_lt hd (by linarith)
      rw [h1, sign_neg h2, sign_neg hd]
    · subst hd
      have h1 : min (0 : α) L = 0 := min_eq_left hL.le
      have h2 : max (0 : α) (-L) = 0 := max_eq_left (by linarith)
      rw [h1, h2]
    · have h1 : 0 < min d L := lt_min hd hL
      have h2 : 0 < max (min d L) (-L) := lt_of_lt_of_le h1 (le_max_left _ _)
      rw [sign_pos h2, sign_pos hd]
  · intro h
    rw [abs_le] at h
    rw [min_eq_left h.2, max_eq_left h.1]

/-- Claim C1. For a positive `delta_tau_max` and every joint `i`, with
`base = tau_J_d[i] - gravity[i]`, the output of `saturateTorqueRate` is within
`delta_tau_max` of `base`; with gravity added back it is within `delta_tau_max`
of `tau_J_d[i]`; `out - base` has the sign of `tau_d_calculated[i] - base`; and
the output is `tau_d_calculated[i]` when that is within `delta_tau_max` of `base`. -/
theorem saturateTorqueRate_bound (delta_tau_max : α)
    (tau_d_calculated tau_J_d gravity : Vec7 α) (i : Fin 7) (h : 0 < delta_tau_max) :
    |saturateTorqueRate delta_tau_max tau_d_calculated tau_J_d gravity i
        - (tau_J_d i - gravity i)| ≤ delta_tau_max
      ∧ |(saturateTorqueRate delta_tau_max tau_d_calculated tau_J_d gravity i + gravity i)
          - tau_J_d i| ≤ delta_tau_max
      ∧ SignType.sign (saturateTorqueRate delta_tau_max tau_d_calculated tau_J_d gravity i
          - (tau_J_d i - gravity i))
        = SignType.sign (tau_d_calculated i - (tau_J_d i - gravity i))
      ∧ (|tau_d_calculated i - (tau_J_d i - gravity i)| ≤ delta_tau_max →
          saturateTorqueRate delta_tau_max tau_d_calculated tau_J_d gravity i
            = tau_d_calculated i) := by
  obtain ⟨h1, h2, h3⟩ := clamp_facts (tau_d_calculated i - (tau_J_d i - gravity i)) _ h
  rw [saturateTorqueRate_apply]
  set c := max (min (tau_d_calculated i - (tau_J_d i - gravity i)) delta_tau_max)
    (-delta_tau_max) with hc
  refine ⟨?_, ?_, ?_, ?_⟩
  · rwa [add_sub_cancel_left]
  · rwa [show tau_J_d i - gravity i + c + gravity i - tau_J_d i = c by ring]
  · rwa [add_sub_cancel_left]
  · intro hd
    rw [h3 hd]; ring

/-- Claim C1 at `delta_tau_max = 1`, raw torque 2, last torque 2, gravity 1/2. -/
theorem saturateTorqueRate_bound_witness :
    (0 : ℚ) < 1
      ∧ (|saturateTorqueRate (1 : ℚ) (fun _ => 2) (fun _ => 2) (fun _ => 1 / 2) 0
            - ((2 : ℚ) - 1 / 2)| ≤ 1
        ∧ |(saturateTorqueRate (1 : ℚ) (fun _ => 2) (fun _ => 2) (fun _ => 1 / 2) 0 + 1 / 2)
            - 2| ≤ 1
        ∧ SignType.sign (saturateTorqueRate (1 : ℚ) (fun _ => 2) (fun _ => 2) (fun _ => 1 / 2) 0
            - ((2 : ℚ) - 1 / 2))
          = SignType.sign ((2 : ℚ) - (2 - 1 / 2))
        ∧ (|(2 : ℚ) - (2 - 1 / 2)| ≤ 1 →
            saturateTorqueRate (1 : ℚ) (fun _ => 2) (fun _ => 2) (fun _ => 1 / 2) 0 = 2)) :=
  ⟨by norm_num,
   saturateTorqueRate_bound (1 : ℚ) (fun _ => 2) (fun _ => 2) (fun _ => 1 / 2) 0 (by norm_num)⟩

/-! ## The torque callback -/

/-- Claim C3, as stated, fails: with gravity torque 1 on every joint and a
robot at rest, the callback returns 0 for joint 0, where gravity re-added
after saturation would give 1. -/
theorem impedance_callback_gravity_counterexample :
    (impedance_control_callback (unit_gravity_model : Model ℚ) print_data_init
        (state_with_pose 0) 0).2.tau_J 0 = 0
      ∧ (unit_gravity_model : Model ℚ).gravity (state_with_pose 0) 0
          + (((state_with_pose (0 : ℚ)).tau_J_d 0
                - (unit_gravity_model : Model ℚ).gravity (state_with_pose 0) 0)
              + max (-delta_tau_max)
                  (min (tau_d_calculated (unit_gravity_model : Model ℚ) (state_with_pose 0) 0
                      - ((state_with_pose (0 : ℚ)).tau_J_d 0
                          - (unit_gravity_model : Model ℚ).gravity (state_with_pose 0) 0))
                    delta_tau_max)) = 1
      ∧ (impedance_control_callback (unit_gravity_model : Model ℚ) print_data_init
          (state_with_pose 0) 0).2.tau_J 0
        ≠ (unit_gravity_model : Model ℚ).gravity (state_with_pose 0) 0
          + (((state_with_pose (0 : ℚ)).tau_J_d 0
                - (unit_gravity_model : Model ℚ).gravity (state_with_pose 0) 0)
              + max (-delta_tau_max)
                  (min (tau_d_calculated (unit_gravity_model : Model ℚ) (state_with_pose 0) 0
                      - ((state_with_pose (0 : ℚ)).tau_J_d 0
                          - (unit_gravity_model : Model ℚ).gravity (state_with_pose 0) 0))
                    delta_tau_max)) := by
  refine ⟨?_, ?_, ?_⟩
  · simp [impedance_control_callback, saturateTorqueRate, tau_d_calculated, unit_gravity_model,
      state_with_pose, delta_tau_max, k_gains, d_gains]
  · simp [tau_d_calculated, unit_gravity_model, state_with_pose, delta_tau_max, k_gains,
      d_gains]
  · simp [impedance_control_callback, saturateTorqueRate, tau_d_calculated, unit_gravity_model,
      state_with_pose, delta_tau_max, k_gains, d_gains]

/-- Claim C3, amended. For every model, shared print data, state and period,
the torque the callback returns for joint `i` is
`base + clamp(tau_raw - base, -delta_tau_max, +delta_tau_max)` with
`base = tau_J_d[i] - g[i]` and `delta_tau_max = 1`, not tagged final: gravity
is subtracted in the baseline and is not added back to the returned command. -/
theorem impedance_callback_returns_saturated (model : Model α) (pd : PrintData α)
    (state : RobotState α) (period : α) (i : Fin 7) :
    (impedance_control_callback model pd state period).2.tau_J i
        = (state.tau_J_d i - model.gravity state i)
          + max (-1)
              (min ((k_gains i * (state.q_d i - state.q i) - d_gains i * state.dq i
                      + model.coriolis state i)
                    - (state.tau_J_d i - model.gravity state i)) 1)
      ∧ (impedance_control_callback model pd state period).2.motion_finished = false := by
  refine ⟨?_, rfl⟩
  show saturateTorqueRate delta_tau_max (tau_d_calculated model state) state.tau_J_d
    (model.gravity state) i = _
  rw [saturateTorqueRate_apply, max_comm]
  rfl

/-! ## The print thread and the shared print data -/

/-- Claim C7, the code at the failing input. From the value-initialised
`print_data` (mutex free, no fresh sample) one pass of the print thread reports
nothing and leaves the mutex held; the torque callback of the next cycle then
fails to acquire it and writes no sample, for every model, state and period. -/
theorem print_thread_tick_leaves_mutex_held :
    ∀ (m : Libm ℚ) (model : Model ℚ) (state : RobotState ℚ) (period : ℚ),
      (print_thread_tick m (print_data_init : PrintData ℚ)).1.mutex = Mutex.held
        ∧ (print_thread_tick m (print_data_init : PrintData ℚ)).2.isNone = true
        ∧ (impedance_control_callback model
            (print_thread_tick m (print_data_init : PrintData ℚ)).1 state period).1.has_data
            = false
        ∧ (impedance_control_callback model
            (print_thread_tick m (print_data_init : PrintData ℚ)).1 state period).1.mutex
            = Mutex.held := by
  intro m model state period
  simp [print_thread_tick, impedance_control_callback, print_data_init, Mutex.try_lock]

/-- When a fresh sample is present and the mutex is free, a pass of the print
thread consumes the sample and releases the mutex. -/
lemma print_thread_tick_fresh (m : Libm α) (pd : PrintData α) (hm : pd.mutex = Mutex.free)
    (hd : pd.has_data = true) :
    (print_thread_tick m pd).1.mutex = Mutex.free
      ∧ (print_thread_tick m pd).1.has_data = false := by
  simp [print_thread_tick, hm, hd, Mutex.try_lock, Mutex.unlock]

/-- With the mutex free, the torque callback writes its sample and releases
the mutex. -/
lemma impedance_callback_writes (model : Model α) (pd : PrintData α) (state : RobotState α)
    (period : α) (hm : pd.mutex = Mutex.free) :
    (impedance_control_callback model pd state period).1.mutex = Mutex.free
      ∧ (impedance_control_callback model pd state period).1.has_data = true := by
  simp [impedance_control_callback, hm, Mutex.try_lock, Mutex.unlock]

/-! ## The start of main -/

/-- Claim C8, as stated, fails at a print rate of exactly 0: `main` reports no
print-rate error and does not return; it starts the print thread and goes on
to connect to the robot, and the sleep of the print thread divides by zero. -/
theorem main_start_zero_print_rate :
    (main_start 5 (some (1 : ℚ)) (some 1) (some 0)).2 = Outcome.control_session
      ∧ reports_print_rate (main_start 5 (some (1 : ℚ)) (some 1) (some 0)).1 = false
      ∧ starts_print_thread (main_start 5 (some (1 : ℚ)) (some 1) (some 0)).1 = true
      ∧ connects_robot (main_start 5 (some (1 : ℚ)) (some 1) (some 0)).1 = true
      ∧ sleep_milliseconds (0 : ℚ) = none := by
  simp [main_start, reports_print_rate, starts_print_thread, connects_robot,
    sleep_milliseconds]

/-- Claim C8, amended. For every argument count and all parsed arguments with
`print_rate < 0`, `main` returns -1 without starting the print thread (the
only place that divides by `print_rate`) and without connecting to the robot;
with the expected five arguments what it reports is the print-rate error. -/
theorem main_start_negative_print_rate (argc : ℕ) (radius vel_max print_rate : α)
    (h : print_rate < 0) :
    (main_start argc (some radius) (some vel_max) (some print_rate)).2 = Outcome.returned (-1)
      ∧ starts_print_thread
          (main_start argc (some radius) (some vel_max) (some print_rate)).1 = false
      ∧ connects_robot
          (main_start argc (some radius) (some vel_max) (some print_rate)).1 = false
      ∧ (argc = 5 → reports_print_rate
          (main_start argc (some radius) (some vel_max) (some print_rate)).1 = true) := by
  by_cases hc : argc = 5
  · simp [main_start, hc, h, starts_print_thread, connects_robot, reports_print_rate]
  · simp [main_start, hc, starts_print_thread, connects_robot]

/-- Claim C8, amended, at `print_rate = -1` with five arguments. -/
theorem main_start_negative_print_rate_witness :
    (-1 : ℚ) < 0
      ∧ ((main_start 5 (some (1 : ℚ)) (some 1) (some (-1))).2 = Outcome.returned (-1)
        ∧ starts_print_thread (main_start 5 (some (1 : ℚ)) (some 1) (some (-1))).1 = false
        ∧ connects_robot (main_start 5 (some (1 : ℚ)) (some 1) (some (-1))).1 = false
        ∧ (5 = 5 → reports_print_rate
            (main_start 5 (some (1 : ℚ)) (some 1) (some (-1))).1 = true)) :=
  ⟨by norm_num, main_start_negative_print_rate 5 1 1 (-1) (by norm_num)⟩

/-! ## The Cartesian pose callback: structure of one call -/

/-- The `time` a call leaves behind. -/
lemma cartesian_pose_callback_time (m : Libm α) (radius vel_max : α) (s : CircleState α)
    (robot_state : RobotState α) (period : α) :
    (cartesian_pose_callback m radius vel_max s robot_state period).1.time
      = s.time + period := by
  unfold cartesian_pose_callback
  dsimp only
  split_ifs <;> rfl

/-- The `initial_pose` a call leaves behind. -/
lemma cartesian_pose_callback_initial_pose (m : Libm α) (radius vel_max : α)
    (s : CircleState α) (robot_state : RobotState α) (period : α) :
    (cartesian_pose_callback m radius vel_max s robot_state period).1.initial_pose
      = if s.time = 0 then robot_state.O_T_EE else s.initial_pose := by
  unfold cartesian_pose_callback
  dsimp only
  split_ifs <;> rfl

/-- The `vel_current` a call leaves behind. -/
lemma cartesian_pose_callback_vel_current (m : Libm α) (radius vel_max : α)
    (s : CircleState α) (robot_state : RobotState α) (period : α) :
    (cartesian_pose_callback m radius vel_max s robot_state period).1.vel_current
      = min (max
          (if (if s.vel_current < vel_max ∧ s.time + period < run_time then
                  s.vel_current + period * |vel_max / acceleration_time|
                else s.vel_current) > 0 ∧ s.time + period > run_time then
              (if s.vel_current < vel_max ∧ s.time + period < run_time then
                  s.vel_current + period * |vel_max / acceleration_time|
                else s.vel_current) - period * |vel_max / acceleration_time|
            else
              (if s.vel_current < vel_max ∧ s.time + period < run_time then
                  s.vel_current + period * |vel_max / acceleration_time|
                else s.vel_current)) 0) vel_max := by
  unfold cartesian_pose_callback
  dsimp only
  split_ifs <;> rfl

/-- A call tags its command final exactly when the updated time has reached
`run_time + acceleration_time`. -/
lemma cartesian_pose_callback_finished (m : Libm α) (radius vel_max : α)
    (s : CircleState α) (robot_state : RobotState α) (period : α) :
    (cartesian_pose_callback m radius vel_max s robot_state period).2.motion_finished = true
      ↔ run_time + acceleration_time ≤ s.time + period := by
  unfold cartesian_pose_callback
  dsimp only
  split_ifs with h <;> simp_all

/-- A run over `cycles` followed by one more cycle is a call from the state
the run leaves. -/
lemma circle_run_append (m : Libm α) (radius vel_max : α) (s : CircleState α)
    (cycles : List (RobotState α × α)) (c : RobotState α × α) :
    circle_run m radius vel_max s (cycles ++ [c])
      = (cartesian_pose_callback m radius vel_max
          (circle_run m radius vel_max s cycles) c.1 c.2).1 := by
  simp [circle_run, List.foldl_append]

/-! ## The pose returned by the Cartesian pose callback -/

/-- The first call captures the transform of its state; when the first period
is zero the second call captures the transform of the second state. -/
lemma initial_pose_after_zero_period (m : Libm α) (radius vel_max : α) (garbage : Mat16 α)
    (s1 s2 : RobotState α) (period : α) :
    (circle_run m radius vel_max (circle_init garbage) [(s1, 0)]).initial_pose = s1.O_T_EE
      ∧ (circle_run m radius vel_max (circle_init garbage)
          [(s1, 0), (s2, period)]).initial_pose = s2.O_T_EE := by
  constructor
  · show (cartesian_pose_callback m radius vel_max (circle_init garbage) s1
      0).1.initial_pose = _
    rw [cartesian_pose_callback_initial_pose]
    exact if_pos rfl
  · show (cartesian_pose_callback m radius vel_max
      (cartesian_pose_callback m radius vel_max (circle_init garbage) s1 0).1
      s2 period).1.initial_pose = _
    rw [cartesian_pose_callback_initial_pose, cartesian_pose_callback_time]
    exact if_pos (add_zero (0 : α))

/-- Claim C10, the code at the failing input. With a first cycle of zero
duration, `time` is still 0 when the second call starts, and the second call
overwrites `initial_pose` with the transform of the second state. -/
theorem initial_pose_overwritten_after_zero_period :
    ∀ (m : Libm ℚ) (garbage : Mat16 ℚ),
      (circle_run m 1 1 (circle_init garbage) [(state_with_pose 1, 0)]).initial_pose
          = (state_with_pose 1).O_T_EE
        ∧ (circle_run m 1 1 (circle_init garbage)
            [(state_with_pose 1, 0), (state_with_pose 2, 1 / 1000)]).initial_pose
          = (state_with_pose 2).O_T_EE
        ∧ (state_with_pose (2 : ℚ)).O_T_EE 0 ≠ (state_with_pose (1 : ℚ)).O_T_EE 0 := by
  intro m garbage
  obtain ⟨h1, h2⟩ := initial_pose_after_zero_period m 1 1 garbage (state_with_pose 1)
    (state_with_pose 2) (1 / 1000)
  refine ⟨h1, h2, ?_⟩
  simp only [state_with_pose]
  norm_num

/-- Once `time` is positive, a call with a non-negative period keeps
`initial_pose` and leaves `time` positive. -/
lemma circle_run_keeps_initial_pose (m : Libm α) (radius vel_max : α)
    (cycles : List (RobotState α × α)) (s : CircleState α) (hs : 0 < s.time)
    (hd : ∀ c ∈ cycles, 0 ≤ c.2) :
    (circle_run m radius vel_max s cycles).initial_pose = s.initial_pose
      ∧ 0 < (circle_run m radius vel_max s cycles).time := by
  induction cycles generalizing s with
  | nil => exact ⟨rfl, hs⟩
  | cons c cs ih =>
    have hc : 0 ≤ c.2 := hd c (List.mem_cons_self _ _)
    have ht : 0 < (cartesian_pose_callback m radius vel_max s c.1 c.2).1.time := by
      rw [cartesian_pose_callback_time]; linarith
    obtain ⟨h1, h2⟩ := ih (cartesian_pose_callback m radius vel_max s c.1 c.2).1 ht
      (fun x hx => hd x (List.mem_cons_of_mem _ hx))
    refine ⟨?_, h2⟩
    show (circle_run m radius vel_max
      (cartesian_pose_callback m radius vel_max s c.1 c.2).1 cs).initial_pose = _
    rw [h1, cartesian_pose_callback_initial_pose, if_neg hs.ne.symm]

/-- With a positive first period and non-negative later periods, `initial_pose`
is the transform of the first state after every call. -/
lemma initial_pose_of_positive_first_period (m : Libm α) (radius vel_max : α)
    (garbage : Mat16 α) (c : RobotState α × α) (cycles : List (RobotState α × α))
    (hc : 0 < c.2) (hd : ∀ x ∈ cycles, 0 ≤ x.2) :
    (circle_run m radius vel_max (circle_init garbage) (c :: cycles)).initial_pose
      = c.1.O_T_EE := by
  have ht : 0 < (cartesian_pose_callback m radius vel_max (circle_init garbage) c.1 c.2).1.time := by
    rw [cartesian_pose_callback_time]
    simpa [circle_init] using hc
  show (circle_run m radius vel_max
    (cartesian_pose_callback m radius vel_max (circle_init garbage) c.1 c.2).1
    cycles).initial_pose = _
  rw [(circle_run_keeps_initial_pose m radius vel_max cycles _ ht hd).1,
    cartesian_pose_callback_initial_pose]
  simp [circle_init]

/-- The `time` a run leaves behind is the starting `time` plus the sum of the
periods. -/
lemma circle_run_time (m : Libm α) (radius vel_max : α) (cycles : List (RobotState α × α))
    (s : CircleState α) :
    (circle_run m radius vel_max s cycles).time = s.time + (cycles.map Prod.snd).sum := by
  induction cycles generalizing s with
  | nil => simp [circle_run]
  | cons c cs ih =>
    show (circle_run m radius vel_max
      (cartesian_pose_callback m radius vel_max s c.1 c.2).1 cs).time = _
    rw [ih, cartesian_pose_callback_time, List.map_cons, List.sum_cons, add_assoc]

/-! ## The velocity ramp of the Cartesian pose callback -/

/-- After one call from any captured state, `vel_current` lies in `[0, vel_max]`. -/
lemma vel_current_step_bounds (m : Libm α) (radius vel_max : α) (s : CircleState α)
    (robot_state : RobotState α) (period : α) (hv : 0 ≤ vel_max) :
    0 ≤ (cartesian_pose_callback m radius vel_max s robot_state period).1.vel_current
      ∧ (cartesian_pose_callback m radius vel_max s robot_state period).1.vel_current
          ≤ vel_max := by
  rw [cartesian_pose_callback_vel_current]
  exact ⟨le_min (le_max_right _ _) hv, min_le_right _ _⟩

/-- Claim C5. For `vel_max >= 0`, every radius, every run of cycles with
durations of any size and sign from `vel_current = 0`, `time = 0`, and every
further cycle, `0 <= vel_current <= vel_max` after the call of that cycle. -/
theorem vel_current_bounded (m : Libm α) (radius vel_max : α) (garbage : Mat16 α)
    (cycles : List (RobotState α × α)) (c : RobotState α × α) (hv : 0 ≤ vel_max) :
    0 ≤ (circle_run m radius vel_max (circle_init garbage) (cycles ++ [c])).vel_current
      ∧ (circle_run m radius vel_max (circle_init garbage) (cycles ++ [c])).vel_current
          ≤ vel_max := by
  rw [circle_run_append]
  exact vel_current_step_bounds m radius vel_max _ c.1 c.2 hv

/-- Claim C5 over the reals: `vel_max = 1`, a first cycle of 19 s and a second
of -40 s. -/
theorem vel_current_bounded_witness :
    (0 : ℝ) ≤ 1
      ∧ (0 ≤ (circle_run (Libm.mk Real.cos Real.sin Real.sqrt Real.pi) 2 1
                (circle_init (fun _ => 0))
                ([(state_with_pose 3, 19)] ++ [(state_with_pose 3, -40)])).vel_current
        ∧ (circle_run (Libm.mk Real.cos Real.sin Real.sqrt Real.pi) 2 1
                (circle_init (fun _ => 0))
                ([(state_with_pose 3, 19)] ++ [(state_with_pose 3, -40)])).vel_current
            ≤ 1) :=
  ⟨zero_le_one,
   vel_current_bounded (Libm.mk Real.cos Real.sin Real.sqrt Real.pi) 2 1 (fun _ => 0)
     [(state_with_pose 3, 19)] (state_with_pose 3, -40) zero_le_one⟩

/-- The ramp-down bound is kept by a call: once the updated time has reached
`run_time`, `vel_current` is at most what is left of `vel_max` after
decelerating since `run_time`. -/
lemma ramp_down_step (m : Libm α) (radius vel_max : α) (s : CircleState α)
    (robot_state : RobotState α) (period : α)
    (hb : s.vel_current ≤ vel_max)
    (hinv : run_time ≤ s.time →
      s.vel_current
        ≤ max 0 (vel_max - (s.time - run_time) * |vel_max / acceleration_time|))
    (ht : (run_time : α) ≤ s.time + period) :
    (cartesian_pose_callback m radius vel_max s robot_state period).1.vel_current
      ≤ max 0 (vel_max - (s.time + period - run_time) * |vel_max / acceleration_time|) := by
  rw [cartesian_pose_callback_vel_current]
  have hrate : 0 ≤ |vel_max / acceleration_time| := abs_nonneg _
  set rate := |vel_max / acceleration_time| with hr
  have hA : ¬ (s.vel_current < vel_max ∧ s.time + period < run_time) := by
    rintro ⟨_, h⟩
    exact absurd h (not_lt.mpr ht)
  simp only [if_neg hA]
  by_cases hB : s.vel_current > 0 ∧ s.time + period > run_time
  · rw [if_pos hB]
    have key : s.vel_current - period * rate
        ≤ vel_max - (s.time + period - run_time) * rate := by
      by_cases h20 : (run_time : α) ≤ s.time
      · rcases le_max_iff.mp (hinv h20) with h | h
        · exact absurd hB.1 (not_lt.mpr h)
        · have e : (s.time + period - run_time) * rate
              = (s.time - run_time) * rate + period * rate := by ring
          rw [e]; linarith
      · have h1 : 0 ≤ (run_time - s.time) * rate :=
          mul_nonneg (by linarith [not_le.mp h20]) hrate
        have e : (s.time + period - run_time) * rate
            = period * rate - (run_time - s.time) * rate := by ring
        rw [e]; linarith
    exact le_trans (min_le_left _ _) (max_le (le_max_of_le_right key) (le_max_left _ _))
  · rw [if_neg hB]
    rcases not_and_or.mp hB with h | h
    · have h0 : max s.vel_current 0 = 0 := max_eq_right (not_lt.mp h)
      rw [h0]
      exact le_trans (min_le_left _ _) (le_max_left _ _)
    · have e : s.time + period - run_time = 0 := by linarith [not_lt.mp h]
      rw [e, zero_mul, sub_zero]
      exact le_trans (min_le_right _ _) (le_max_right _ _)

/-- The upper bound of `vel_current` and the ramp-down bound hold after every
run of cycles. -/
lemma ramp_down_run (m : Libm α) (radius vel_max : α) (hv : 0 ≤ vel_max)
    (cycles : List (RobotState α × α)) (s : CircleState α)
    (hb : s.vel_current ≤ vel_max)
    (hinv : run_time ≤ s.time →
      s.vel_current
        ≤ max 0 (vel_max - (s.time - run_time) * |vel_max / acceleration_time|)) :
    (circle_run m radius vel_max s cycles).vel_current ≤ vel_max
      ∧ (run_time ≤ (circle_run m radius vel_max s cycles).time →
          (circle_run m radius vel_max s cycles).vel_current
            ≤ max 0 (vel_max - ((circle_run m radius vel_max s cycles).time - run_time)
                * |vel_max / acceleration_time|)) := by
  induction cycles generalizing s with
  | nil => exact ⟨hb, hinv⟩
  | cons c cs ih =>
    apply ih (cartesian_pose_callback m radius vel_max s c.1 c.2).1
    · exact (vel_current_step_bounds m radius vel_max s c.1 c.2 hv).2
    · intro ht
      rw [cartesian_pose_callback_time] at ht ⊢
      exact ramp_down_step m radius vel_max s c.1 c.2 hb hinv ht

/-- Claim C9. For `vel_max >= 0`, every radius and every run of cycles from
`time = 0`, `vel_current = 0` (with non-negative durations, and with any
others): on a cycle whose call returns a command tagged final, `vel_current`
is 0 after that call. -/
theorem vel_current_zero_when_finished (m : Libm α) (radius vel_max : α)
    (garbage : Mat16 α) (cycles : List (RobotState α × α)) (c : RobotState α × α)
    (hv : 0 ≤ vel_max)
    (hfin : (cartesian_pose_callback m radius vel_max
        (circle_run m radius vel_max (circle_init garbage) cycles) c.1 c.2).2.motion_finished
          = true) :
    (cartesian_pose_callback m radius vel_max
        (circle_run m radius vel_max (circle_init garbage) cycles) c.1 c.2).1.vel_current
      = 0 := by
  have h0 : (circle_init garbage : CircleState α).vel_current ≤ vel_max := hv
  have hi : (run_time : α) ≤ (circle_init garbage : CircleState α).time →
      (circle_init garbage : CircleState α).vel_current
        ≤ max 0 (vel_max - ((circle_init garbage : CircleState α).time - run_time)
            * |vel_max / acceleration_time|) := fun _ => le_max_left _ _
  obtain ⟨hb, hinv⟩ := ramp_down_run m radius vel_max hv cycles (circle_init garbage) h0 hi
  rw [cartesian_pose_callback_finished] at hfin
  have hrt : (run_time : α) ≤ (circle_run m radius vel_max (circle_init garbage) cycles).time
      + c.2 := by
    have : (0 : α) ≤ acceleration_time := by unfold acceleration_time; norm_num
    linarith
  have hup := ramp_down_step m radius vel_max _ c.1 c.2 hb hinv hrt
  have hlo := (vel_current_step_bounds m radius vel_max
    (circle_run m radius vel_max (circle_init garbage) cycles) c.1 c.2 hv).1
  have hrate : |vel_max / acceleration_time| = vel_max / 2 := by
    unfold acceleration_time
    exact abs_of_nonneg (by positivity)
  have hrest : vel_max - ((circle_run m radius vel_max (circle_init garbage) cycles).time
      + c.2 - run_time) * |vel_max / acceleration_time| ≤ 0 := by
    rw [hrate]
    have h2 : (2 : α) ≤ (circle_run m radius vel_max (circle_init garbage) cycles).time
        + c.2 - run_time := by
      have : (acceleration_time : α) = 2 := rfl
      linarith
    have := mul_le_mul_of_nonneg_right h2 (by positivity : (0 : α) ≤ vel_max / 2)
    linarith
  exact le_antisymm (le_trans hup (max_le le_rfl hrest)) hlo

/-- Claim C9 over the reals: `vel_max = 1`, a first cycle of 19 s that ramps
up to `vel_max`, and a second cycle of 3 s that reaches `time = 22`. -/
theorem vel_current_zero_when_finished_witness :
    (0 : ℝ) ≤ 1
      ∧ (cartesian_pose_callback (Libm.mk Real.cos Real.sin Real.sqrt Real.pi) 2 1
          (circle_run (Libm.mk Real.cos Real.sin Real.sqrt Real.pi) 2 1
            (circle_init (fun _ => 0)) [(state_with_pose 3, 19)])
          (state_with_pose 3) 3).2.motion_finished = true
      ∧ (cartesian_pose_callback (Libm.mk Real.cos Real.sin Real.sqrt Real.pi) 2 1
          (circle_run (Libm.mk Real.cos Real.sin Real.sqrt Real.pi) 2 1
            (circle_init (fun _ => 0)) [(state_with_pose 3, 19)])
          (state_with_pose 3) 3).1.vel_current = 0 :=
  have hfin : (cartesian_pose_callback (Libm.mk Real.cos Real.sin Real.sqrt Real.pi) 2 1
      (circle_run (Libm.mk Real.cos Real.sin Real.sqrt Real.pi) 2 1
        (circle_init (fun _ => 0)) [(state_with_pose 3, 19)])
      (state_with_pose 3) 3).2.motion_finished = true := by
    rw [cartesian_pose_callback_finished, circle_run_time]
    norm_num [circle_init, run_time, acceleration_time]
  ⟨zero_le_one, hfin,
   vel_current_zero_when_finished (Libm.mk Real.cos Real.sin Real.sqrt Real.pi) 2 1
     (fun _ => 0) [(state_with_pose 3, 19)] (state_with_pose 3, 3) zero_le_one hfin⟩

end FieldTheorems

section FloorTheorems

variable {α : Type} [LinearOrderedField α] [FloorRing α]

/-! ## The joint velocity callback -/

/-- The `time` a call of the joint velocity callback leaves behind. -/
lemma joint_velocity_callback_time (m : Libm α) (time : α) (state : RobotState α)
    (time_step : α) :
    (joint_velocity_callback m time state time_step).1 = time + time_step := by
  unfold joint_velocity_callback
  dsimp only
  split_ifs <;> rfl

/-- A call tags its command final exactly when the updated time has reached
`2 * time_max`. -/
lemma joint_velocity_callback_finished (m : Libm α) (time : α) (state : RobotState α)
    (time_step : α) :
    (joint_velocity_callback m time state time_step).2.motion_finished = true
      ↔ 2 * time_max ≤ time + time_step := by
  unfold joint_velocity_callback
  dsimp only
  split_ifs with h <;> simp_all

/-- On a cycle that is not the last, the command is the saturated one. -/
lemma joint_velocity_callback_saturated (m : Libm α) (time : α) (state : RobotState α)
    (time_step : α) (h : time + time_step < 2 * time_max) (i : Fin 7) :
    (joint_velocity_callback m time state time_step).2.dq i
      = state.dq_d i
        + max (-(max_joint_acc i))
            (min (velocities (omega_at m (time + time_step)) i - state.dq_d i)
              (max_joint_acc i)) := by
  unfold joint_velocity_callback
  dsimp only
  rw [if_neg (not_le.mpr h)]
  rfl

/-- On the last cycle the command is the generated velocity itself. -/
lemma joint_velocity_callback_final_raw (m : Libm α) (time : α) (state : RobotState α)
    (time_step : α) (h : 2 * time_max ≤ time + time_step) :
    (joint_velocity_callback m time state time_step).2.dq
      = velocities (omega_at m (time + time_step)) := by
  unfold joint_velocity_callback
  dsimp only
  rw [if_pos h]

/-- The exponent handed to `std::pow(-1.0, .)` is always an integer, so the
NaN case of `pow_neg_one` is never reached. -/
lemma omega_exponent_integer (time : α) :
    ((⌊(time - fmod time time_max) / time_max⌋ : ℤ) : α)
      = (time - fmod time time_max) / time_max := by
  have e : (time - fmod time time_max) / time_max = ((trunc (time / 1) : ℤ) : α) := by
    unfold fmod time_max
    ring
  rw [e, Int.floor_intCast]

/-- The accumulated `time` from a starting value is that value plus the sum of
the cycle durations. -/
lemma velocity_foldl_time (m : Libm α) (cycles : List (RobotState α × α)) (t : α) :
    cycles.foldl (fun t c => (joint_velocity_callback m t c.1 c.2).1) t
      = t + (cycles.map Prod.snd).sum := by
  induction cycles generalizing t with
  | nil => simp
  | cons c cs ih =>
    rw [List.foldl_cons, ih, joint_velocity_callback_time, List.map_cons, List.sum_cons,
      add_assoc]

/-- The accumulated `time` is the sum of the cycle durations. -/
lemma velocity_time_eq_sum (m : Libm α) (cycles : List (RobotState α × α)) :
    velocity_time m cycles = (cycles.map Prod.snd).sum := by
  unfold velocity_time
  rw [velocity_foldl_time, zero_add]

/-- Claim C4. From `time = 0`, after any run of cycles (of non-negative
durations, and of any others), the call of a further cycle returns a command
tagged final exactly when the accumulated time, that cycle included, is at
least `2 * time_max`; fed 1 ms on every cycle, the call of cycle number
`length states + 1` is final exactly when that number is at least 2000. -/
theorem joint_velocity_final_iff (m : Libm α) (cycles : List (RobotState α × α))
    (state : RobotState α) (time_step : α) (states : List (RobotState α)) :
    ((joint_velocity_callback m (velocity_time m cycles) state time_step).2.motion_finished
        = true
      ↔ 2 * time_max ≤ (cycles.map Prod.snd).sum + time_step)
    ∧ ((joint_velocity_callback m
          (velocity_time m (states.map (fun s => (s, (1 / 1000 : α))))) state
          (1 / 1000)).2.motion_finished = true
      ↔ 2000 ≤ states.length + 1) := by
  constructor
  · rw [joint_velocity_callback_finished, velocity_time_eq_sum]
  · rw [joint_velocity_callback_finished, velocity_time_eq_sum, List.map_map]
    have hs : (List.map (Prod.snd ∘ fun s : RobotState α => (s, (1 / 1000 : α))) states).sum
        = (states.length : α) * (1 / 1000) := by
      induction states with
      | nil => simp
      | cons s ss ih =>
        rw [List.map_cons, List.sum_cons, ih, List.length_cons]
        push_cast
        simp only [Function.comp]
        ring
    rw [hs]
    unfold time_max
    constructor
    · intro h
      have h1 : (2000 : α) ≤ (states.length : α) + 1 := by linarith
      exact_mod_cast h1
    · intro h
      have h1 : (2000 : α) ≤ (states.length : α) + 1 := by exact_mod_cast h
      linarith

/-- Claim C2, the code at the failing input. From `time = 0`, one cycle of 2 s
with last commanded joint velocity 20 on every joint: the command is tagged
final and its entry for joint 0 is the generated 0, where the saturation
filter gives `20 - 14.25 = 5.75`. -/
theorem joint_velocity_final_not_saturated :
    ∀ m : Libm ℚ,
      (joint_velocity_callback m 0 (state_with_dq_d 20) 2).2.motion_finished = true
        ∧ (joint_velocity_callback m 0 (state_with_dq_d 20) 2).2.dq 0 = 0
        ∧ saturate max_joint_acc (velocities (omega_at m (0 + 2)))
            (state_with_dq_d (20 : ℚ)).dq_d 0 = 23 / 4 := by
  intro m
  have hf : (2 : ℚ) * time_max ≤ 0 + 2 := by unfold time_max; norm_num
  refine ⟨(joint_velocity_callback_finished m 0 _ 2).mpr hf, ?_, ?_⟩
  · rw [joint_velocity_callback_final_raw m 0 _ 2 hf]
    rfl
  · simp only [saturate, velocities, max_joint_acc, state_with_dq_d, Matrix.cons_val_zero]
    norm_num

end FloorTheorems

end Franka
